import Mathlib

/-!
Verification of the FancyZones editor-parameter snapshot logic
(`EditorParameters::Save` in `src/modules/fancyzones/FancyZonesLib/EditorParameters.cpp`).

The C++ function is embedded shallowly as a pure Lean function over an
environment `Env` of collaborator inputs (virtual-desktop identity, settings
flags, the enumerated monitor list, the cursor/foreground monitor resolution
and the per-monitor DPI query).  Helper routines that live outside the given
source file (`GetDisplayDeviceId`, `TrimDeviceId`, `GetAllMonitorsCombinedRect`,
`DPIAware::Convert`, `ZonedWindowProperties::MultiMonitorDeviceID`) are
modelled from the specification, as marked in their doc comments.

Machine integers (`LONG` rectangle coordinates, `UINT` dpi values) are
modelled as `Int`/`Nat`; the float arithmetic of the DPI conversion is
modelled over `ℚ` with explicit round-half-away-from-zero, following the
spec's description of the rounding policy.  `HMONITOR` handles are modelled
as `Nat`, with `0` standing for a null handle.
-/

/-- A Windows `RECT`: left/top/right/bottom edges in pixels. -/
structure Rect where
  left : Int
  top : Int
  right : Int
  bottom : Int
deriving Repr, DecidableEq

/-- The part of `MONITORINFOEX` that `EditorParameters::Save` reads:
the device name `szDevice`, the work-area rectangle `rcWork` and the full
monitor rectangle `rcMonitor`. -/
structure MONITORINFOEX where
  szDevice : String
  rcWork : Rect
  rcMonitor : Rect
deriving Repr, DecidableEq

/-- `JsonUtils::MonitorInfo`: one per-monitor record of the emitted
parameter file. -/
structure JsonUtils.MonitorInfo where
  monitorName : String
  virtualDesktop : String
  dpi : Int
  top : Int
  left : Int
  workAreaWidth : Int
  workAreaHeight : Int
  monitorWidth : Int
  monitorHeight : Int
  isSelected : Bool
deriving Repr, DecidableEq

/-- `JsonUtils::EditorArgs`: the whole record serialized to
`editor-parameters.json`. -/
structure JsonUtils.EditorArgs where
  processId : Nat
  spanZonesAcrossMonitors : Bool
  monitors : List JsonUtils.MonitorInfo
deriving Repr, DecidableEq

/-- The collaborator inputs consumed by one `EditorParameters::Save` call:
the virtual-desktop identity (`none` when the OS cannot supply it), the two
settings flags, the current process id, the monitor list produced by
`FancyZonesUtils::GetAllMonitorInfo` (handle paired with its
`MONITORINFOEX`), the monitor handles resolved by
`MonitorFromPoint(GetCursorPos, MONITOR_DEFAULTTOPRIMARY)` and
`MonitorFromWindow(GetForegroundWindow(), MONITOR_DEFAULTTOPRIMARY)`
(`0` = null), and the per-monitor DPI query
`DPIAware::GetScreenDPIForMonitor` (`none` = the query did not return
`S_OK`). -/
structure Env where
  virtualDesktopIdStr : Option String
  spanZonesAcrossMonitors : Bool
  useCursorposEditorStartupscreen : Bool
  processId : Nat
  allMonitors : List (Nat × MONITORINFOEX)
  cursorMonitor : Nat
  foregroundMonitor : Nat
  getScreenDPIForMonitor : Nat → Option Nat

/-- Lookup in the `displayDeviceIdxMap`; like C++
`std::unordered_map::operator[]`, an absent key reads as `0`. -/
def mapGet : List (String × Nat) → String → Nat
  | [], _ => 0
  | (k, v) :: rest, key => if k = key then v else mapGet rest key

/-- Increment the count stored for `key` (value-initialising to `0` first
when absent), as `++displayDeviceIdxMap[device]` does. -/
def mapBump : List (String × Nat) → String → List (String × Nat)
  | [], key => [(key, 1)]
  | (k, v) :: rest, key =>
    if k = key then (k, v + 1) :: rest else (k, v) :: mapBump rest key

/-- Decimal digit character for a digit value below ten. -/
def digitChar (d : Nat) : Char :=
  match d with
  | 0 => '0' | 1 => '1' | 2 => '2' | 3 => '3' | 4 => '4'
  | 5 => '5' | 6 => '6' | 7 => '7' | 8 => '8' | _ => '9'

/-- Little-endian base-ten digits of `n`, driven by explicit fuel so the
definition is structurally recursive. -/
def natDigitsAux : Nat → Nat → List Nat
  | 0, _ => []
  | _ + 1, 0 => []
  | fuel + 1, n + 1 => (n + 1) % 10 :: natDigitsAux fuel ((n + 1) / 10)

/-- Little-endian base-ten digits of `n` (empty for `0`). -/
def natDigits (n : Nat) : List Nat := natDigitsAux n n

/-- Decimal string of a natural number (most significant digit first), used
for the disambiguation index suffix. -/
def natStr (n : Nat) : String :=
  if n = 0 then "0" else String.mk (((natDigits n).map digitChar).reverse)

/-- Modelled from the spec: `FancyZonesUtils::GetDisplayDeviceId` (declared
in `FancyZonesLib/util.h`, definition not part of the analysed source)
disambiguates duplicate device names: it keeps a running occurrence count
per base device identifier in `displayDeviceIdxMap` for the duration of one
snapshot, leaves the first occurrence of a base id untouched, and appends an
index suffix on the second and later occurrences.  It returns the
(possibly suffixed) id together with the updated map. -/
def FancyZonesUtils.GetDisplayDeviceId (device : String)
    (idxMap : List (String × Nat)) : String × List (String × Nat) :=
  let idx := mapGet idxMap device
  let deviceId := if idx = 0 then device else device ++ "_" ++ natStr idx
  (deviceId, mapBump idxMap device)

/-- Modelled from the spec: `FancyZonesUtils::TrimDeviceId` (declared in
`FancyZonesLib/util.h`, definition not part of the analysed source) strips
OS-supplied container/prefix decoration from a device id.  The spec fixes no
decoration format, so device identifiers are modelled as already
undecorated and the trim is the identity. -/
def FancyZonesUtils.TrimDeviceId (deviceId : String) : String := deviceId

/-- Union of two rectangles: min of lefts/tops, max of rights/bottoms. -/
def FancyZonesUtils.UnionRect (a b : Rect) : Rect :=
  { left := min a.left b.left
    top := min a.top b.top
    right := max a.right b.right
    bottom := max a.bottom b.bottom }

/-- Modelled from the spec: `FancyZonesUtils::GetAllMonitorsCombinedRect`
(declared in `FancyZonesLib/util.h`, definition not part of the analysed
source) computes the union rectangle over all monitors' selected
rectangles: min of all lefts/tops, max of all rights/bottoms across the
set (the zero rectangle when no monitor exists). -/
def FancyZonesUtils.GetAllMonitorsCombinedRect : List Rect → Rect
  | [] => { left := 0, top := 0, right := 0, bottom := 0 }
  | r :: rs => rs.foldl FancyZonesUtils.UnionRect r

/-- Round a rational to the nearest integer, ties away from zero: the
behaviour of `std::roundf` on the converted dimension. -/
def roundHalfAwayFromZero (x : ℚ) : Int :=
  if 0 ≤ x then ⌊x + 1 / 2⌋ else ⌈x - 1 / 2⌉

/-- Modelled from the spec: `DPIAware::Convert` (in `common/Display`,
not part of the analysed source) converts a value from DPI-unaware pixel
units into DPI-aware units using the monitor's scale factor, i.e. it
multiplies by `96 / dpi` where `dpi` is the monitor's effective DPI; when
the DPI query yields nothing the value is left unchanged (unreachable in
`Save`, which only converts after a successful query). -/
def DPIAware.Convert (env : Env) (monitor : Nat) (v : ℚ) : ℚ :=
  match env.getScreenDPIForMonitor monitor with
  | some dpi => v * 96 / dpi
  | none => v

/-- Modelled from the spec: `ZonedWindowProperties::MultiMonitorDeviceID`,
the reserved synthetic device name marking "all monitors combined" in
spanned mode. -/
def ZonedWindowProperties.MultiMonitorDeviceID : String :=
  "FancyZones#MultiMonitorDevice"

/-- The target-monitor resolution of `EditorParameters::Save` (lines
135-145): the monitor under the cursor when
`use_cursorpos_editor_startupscreen` is set, else the monitor of the
foreground window, each already carrying the primary-monitor fallback of
`MONITOR_DEFAULTTOPRIMARY`. -/
def targetMonitor (env : Env) : Nat :=
  if env.useCursorposEditorStartupscreen then env.cursorMonitor
  else env.foregroundMonitor

/-- The per-monitor record filled by the loop body of
`EditorParameters::Save` (lines 158-189) for a monitor whose DPI query
succeeded: the trimmed disambiguated device id, the raw work-area geometry
(edge subtraction, DPI-unaware units) and the full-bounds dimensions
converted to DPI-aware units and rounded half away from zero. -/
def monitorRecord (env : Env) (virtualDesktopId : String) (tm : Nat)
    (monitor : Nat) (monitorInfo : MONITORINFOEX) (dpi : Nat)
    (deviceId : String) : JsonUtils.MonitorInfo :=
  { monitorName := FancyZonesUtils.TrimDeviceId deviceId
    virtualDesktop := virtualDesktopId
    dpi := (dpi : Int)
    top := monitorInfo.rcWork.top
    left := monitorInfo.rcWork.left
    workAreaWidth := monitorInfo.rcWork.right - monitorInfo.rcWork.left
    workAreaHeight := monitorInfo.rcWork.bottom - monitorInfo.rcWork.top
    monitorWidth := roundHalfAwayFromZero (DPIAware.Convert env monitor
      ((monitorInfo.rcMonitor.right - monitorInfo.rcMonitor.left : Int) : ℚ))
    monitorHeight := roundHalfAwayFromZero (DPIAware.Convert env monitor
      ((monitorInfo.rcMonitor.bottom - monitorInfo.rcMonitor.top : Int) : ℚ))
    isSelected := decide (monitor = tm) }

/-- The per-monitor loop of `EditorParameters::Save` (lines 153-190):
for each enumerated monitor, first consume the device-id occurrence count
(`GetDisplayDeviceId`), mark the record selected when the handle equals the
target monitor, then query the DPI; on query failure `continue` (the record
is dropped but the updated index map persists), otherwise fill the
geometry fields and append the record. -/
def saveMonitors (env : Env) (virtualDesktopId : String) (tm : Nat) :
    List (Nat × MONITORINFOEX) → List (String × Nat) →
      List JsonUtils.MonitorInfo
  | [], _ => []
  | (monitor, monitorInfo) :: rest, idxMap =>
    let r := FancyZonesUtils.GetDisplayDeviceId monitorInfo.szDevice idxMap
    match env.getScreenDPIForMonitor monitor with
    | none => saveMonitors env virtualDesktopId tm rest r.2
    | some dpi =>
      monitorRecord env virtualDesktopId tm monitor monitorInfo dpi r.1 ::
        saveMonitors env virtualDesktopId tm rest r.2

/-- `EditorParameters::Save` (lines 80-198), embedded as a function from the
collaborator inputs to the written `EditorArgs` record: `none` means the
function returned `false` after logging, without writing a parameter file;
`some args` means it returned `true` after writing `args`. -/
def EditorParameters.Save (env : Env) : Option JsonUtils.EditorArgs :=
  match env.virtualDesktopIdStr with
  | none => none
  | some virtualDesktopId =>
    if env.spanZonesAcrossMonitors then
      let combinedWorkArea := FancyZonesUtils.GetAllMonitorsCombinedRect
        (env.allMonitors.map (fun p => p.2.rcWork))
      let combinedMonitorArea := FancyZonesUtils.GetAllMonitorsCombinedRect
        (env.allMonitors.map (fun p => p.2.rcMonitor))
      some { processId := env.processId
             spanZonesAcrossMonitors := env.spanZonesAcrossMonitors
             monitors := [{
               monitorName := ZonedWindowProperties.MultiMonitorDeviceID
               virtualDesktop := virtualDesktopId
               dpi := 0
               top := combinedWorkArea.top
               left := combinedWorkArea.left
               workAreaWidth := combinedWorkArea.right - combinedWorkArea.left
               workAreaHeight := combinedWorkArea.bottom - combinedWorkArea.top
               monitorWidth := combinedMonitorArea.right - combinedMonitorArea.left
               monitorHeight := combinedMonitorArea.bottom - combinedMonitorArea.top
               isSelected := true }] }
    else
      let tm := targetMonitor env
      if tm = 0 then none
      else
        some { processId := env.processId
               spanZonesAcrossMonitors := env.spanZonesAcrossMonitors
               monitors := saveMonitors env virtualDesktopId tm
                 env.allMonitors [] }

/-- Erase the `monitorName` field of a record (used to state which parts of
the output are independent of the device-id disambiguation state). -/
def stripName (r : JsonUtils.MonitorInfo) : JsonUtils.MonitorInfo :=
  { r with monitorName := "" }

/-- Erase the `processId` field of the emitted record (used to state
determinism of `Save` modulo the process id). -/
def stripPid (a : JsonUtils.EditorArgs) : JsonUtils.EditorArgs :=
  { a with processId := 0 }

/-- The device-id index map produced by running the loop over `l` starting
from map `m` (each iteration bumps the count of its device name). -/
def idxMapAfter (l : List (Nat × MONITORINFOEX))
    (m : List (String × Nat)) : List (String × Nat) :=
  l.foldl (fun acc p => mapBump acc p.2.szDevice) m

/-- How many of the monitors in `l` carry device name `d`. -/
def deviceCount (d : String) (l : List (Nat × MONITORINFOEX)) : Nat :=
  l.countP (fun p => decide (p.2.szDevice = d))

/-- The execution context a call of `EditorParameters::Save` runs on: the
dedicated single-purpose `OnThreadExecutor` that was switched to
DPI-unaware, mixed-hosting mode (lines 89-93), or the caller's own thread. -/
inductive ExecCtx where
  | dpiUnawareThread
  | callerThread
deriving DecidableEq, Repr

/-- The display-related OS call sites of `EditorParameters::Save`:
the DPI-awareness mode switch (lines 91-92), the per-monitor enumeration
`GetAllMonitorInfo<&MONITORINFOEX::rcWork>` (line 132), and the two
combined-rectangle enumerations of spanned mode,
`GetAllMonitorsCombinedRect<&MONITORINFOEX::rcWork>` (line 105) and
`GetAllMonitorsCombinedRect<&MONITORINFOEX::rcMonitor>` (line 109). -/
inductive OsCall where
  | setDpiUnawareContext
  | getAllMonitorInfoEnum
  | combinedWorkAreaEnum
  | combinedMonitorAreaEnum
deriving DecidableEq, Repr

/-- Whether a call enumerates monitor rectangles (everything except the
mode switch). -/
def OsCall.isRectEnumeration : OsCall → Bool
  | .setDpiUnawareContext => false
  | _ => true

/-- One issued call together with the execution context it runs on. -/
structure ExecEvent where
  call : OsCall
  ctx : ExecCtx
deriving DecidableEq, Repr

/-- The sequence of display-related calls `EditorParameters::Save` issues
and the context each one runs on, read off the source: nothing when the
virtual-desktop identity is missing (early return, line 86); otherwise the
mode switch submitted to the dedicated thread and awaited (lines 90-93),
then in spanned mode the combined work-area enumeration submitted to the
dedicated thread and awaited (lines 104-107) followed by the combined
full-bounds enumeration executed directly on the caller's thread
(line 109), and in non-spanned mode the monitor-info enumeration submitted
to the dedicated thread and awaited (lines 131-133). -/
def EditorParameters.SaveCallTrace (env : Env) : List ExecEvent :=
  match env.virtualDesktopIdStr with
  | none => []
  | some _ =>
    { call := .setDpiUnawareContext, ctx := .dpiUnawareThread } ::
      (if env.spanZonesAcrossMonitors then
        [{ call := .combinedWorkAreaEnum, ctx := .dpiUnawareThread },
         { call := .combinedMonitorAreaEnum, ctx := .callerThread }]
      else
        [{ call := .getAllMonitorInfoEnum, ctx := .dpiUnawareThread }])

theorem mapGet_mapBump_self (m : List (String × Nat)) (d : String) :
    mapGet (mapBump m d) d = mapGet m d + 1 := by
  induction m with
  | nil => simp [mapGet, mapBump]
  | cons kv rest ih =>
    obtain ⟨k, v⟩ := kv
    by_cases h : k = d
    · simp [mapGet, mapBump, h]
    · simp [mapGet, mapBump, h, ih]

theorem mapGet_mapBump_ne (m : List (String × Nat)) (d e : String)
    (h : d ≠ e) : mapGet (mapBump m d) e = mapGet m e := by
  induction m with
  | nil => simp [mapGet, mapBump, h]
  | cons kv rest ih =>
    obtain ⟨k, v⟩ := kv
    by_cases hk : k = d
    · subst hk
      simp [mapGet, mapBump, h]
    · simp only [mapBump, if_neg hk, mapGet]
      by_cases hke : k = e
      · simp [hke]
      · simp [hke, ih]

theorem mapGet_idxMapAfter (l : List (Nat × MONITORINFOEX))
    (m : List (String × Nat)) (d : String) :
    mapGet (idxMapAfter l m) d = mapGet m d + deviceCount d l := by
  induction l generalizing m with
  | nil => simp [idxMapAfter, deviceCount]
  | cons p rest ih =>
    simp only [idxMapAfter, List.foldl_cons] at *
    rw [ih]
    by_cases h : p.2.szDevice = d
    · rw [h, mapGet_mapBump_self]
      simp [deviceCount, List.countP_cons, h]
      omega
    · rw [mapGet_mapBump_ne _ _ _ h]
      simp [deviceCount, List.countP_cons, h]

theorem saveMonitors_nil (env : Env) (vd : String) (tm : Nat)
    (m : List (String × Nat)) : saveMonitors env vd tm [] m = [] := rfl

theorem saveMonitors_cons_none (env : Env) (vd : String) (tm : Nat)
    (monitor : Nat) (monitorInfo : MONITORINFOEX)
    (rest : List (Nat × MONITORINFOEX)) (m : List (String × Nat))
    (h : env.getScreenDPIForMonitor monitor = none) :
    saveMonitors env vd tm ((monitor, monitorInfo) :: rest) m =
      saveMonitors env vd tm rest (mapBump m monitorInfo.szDevice) := by
  simp [saveMonitors, FancyZonesUtils.GetDisplayDeviceId, h]

theorem saveMonitors_cons_some (env : Env) (vd : String) (tm : Nat)
    (monitor : Nat) (monitorInfo : MONITORINFOEX) (dpi : Nat)
    (rest : List (Nat × MONITORINFOEX)) (m : List (String × Nat))
    (h : env.getScreenDPIForMonitor monitor = some dpi) :
    saveMonitors env vd tm ((monitor, monitorInfo) :: rest) m =
      monitorRecord env vd tm monitor monitorInfo dpi
          (FancyZonesUtils.GetDisplayDeviceId monitorInfo.szDevice m).1 ::
        saveMonitors env vd tm rest (mapBump m monitorInfo.szDevice) := by
  simp [saveMonitors, FancyZonesUtils.GetDisplayDeviceId, h]

theorem saveMonitors_append (env : Env) (vd : String) (tm : Nat)
    (l1 l2 : List (Nat × MONITORINFOEX)) (m : List (String × Nat)) :
    saveMonitors env vd tm (l1 ++ l2) m =
      saveMonitors env vd tm l1 m ++
        saveMonitors env vd tm l2 (idxMapAfter l1 m) := by
  induction l1 generalizing m with
  | nil => simp [saveMonitors_nil, idxMapAfter]
  | cons p rest ih =>
    obtain ⟨monitor, monitorInfo⟩ := p
    cases h : env.getScreenDPIForMonitor monitor with
    | none =>
      rw [List.cons_append, saveMonitors_cons_none _ _ _ _ _ _ _ h,
        saveMonitors_cons_none _ _ _ _ _ _ _ h, ih]
      rfl
    | some dpi =>
      rw [List.cons_append, saveMonitors_cons_some _ _ _ _ _ _ _ _ h,
        saveMonitors_cons_some _ _ _ _ _ _ _ _ h, ih]
      rfl

theorem map_stripName_saveMonitors (env : Env) (vd : String) (tm : Nat)
    (l : List (Nat × MONITORINFOEX)) (m1 m2 : List (String × Nat)) :
    (saveMonitors env vd tm l m1).map stripName =
      (saveMonitors env vd tm l m2).map stripName := by
  induction l generalizing m1 m2 with
  | nil => simp [saveMonitors_nil]
  | cons p rest ih =>
    obtain ⟨monitor, monitorInfo⟩ := p
    cases h : env.getScreenDPIForMonitor monitor with
    | none =>
      rw [saveMonitors_cons_none _ _ _ _ _ _ _ h,
        saveMonitors_cons_none _ _ _ _ _ _ _ h]
      exact ih _ _
    | some dpi =>
      rw [saveMonitors_cons_some _ _ _ _ _ _ _ _ h,
        saveMonitors_cons_some _ _ _ _ _ _ _ _ h]
      simp only [List.map_cons, stripName, monitorRecord]
      rw [ih _ _]

theorem countP_isSelected_saveMonitors (env : Env) (vd : String) (tm : Nat)
    (l : List (Nat × MONITORINFOEX)) (m : List (String × Nat)) :
    (saveMonitors env vd tm l m).countP (fun r => r.isSelected) =
      l.countP (fun p =>
        decide (p.1 = tm) && (env.getScreenDPIForMonitor p.1).isSome) := by
  induction l generalizing m with
  | nil => simp [saveMonitors_nil]
  | cons p rest ih =>
    obtain ⟨monitor, monitorInfo⟩ := p
    cases h : env.getScreenDPIForMonitor monitor with
    | none =>
      rw [saveMonitors_cons_none _ _ _ _ _ _ _ h, ih]
      simp [List.countP_cons, h]
    | some dpi =>
      rw [saveMonitors_cons_some _ _ _ _ _ _ _ _ h]
      simp only [List.countP_cons, ih]
      simp [monitorRecord, h]

theorem mem_saveMonitors (env : Env) (vd : String) (tm : Nat)
    (l : List (Nat × MONITORINFOEX)) (m : List (String × Nat))
    (r : JsonUtils.MonitorInfo) (hr : r ∈ saveMonitors env vd tm l m) :
    ∃ p ∈ l, ∃ dpi, env.getScreenDPIForMonitor p.1 = some dpi ∧
      ∃ name, r = monitorRecord env vd tm p.1 p.2 dpi name := by
  induction l generalizing m with
  | nil => simp [saveMonitors_nil] at hr
  | cons p rest ih =>
    obtain ⟨monitor, monitorInfo⟩ := p
    cases h : env.getScreenDPIForMonitor monitor with
    | none =>
      rw [saveMonitors_cons_none _ _ _ _ _ _ _ h] at hr
      obtain ⟨q, hq, hrest⟩ := ih _ hr
      exact ⟨q, List.mem_cons_of_mem _ hq, hrest⟩
    | some dpi =>
      rw [saveMonitors_cons_some _ _ _ _ _ _ _ _ h] at hr
      rcases List.mem_cons.mp hr with hhead | htail
      · exact ⟨(monitor, monitorInfo), List.mem_cons_self _ _,
          dpi, h, _, hhead⟩
      · obtain ⟨q, hq, hrest⟩ := ih _ htail
        exact ⟨q, List.mem_cons_of_mem _ hq, hrest⟩

/-- Round-half-away-from-zero of an integer value is that integer. -/
theorem roundHalfAwayFromZero_intCast (n : ℤ) :
    roundHalfAwayFromZero (n : ℚ) = n := by
  unfold roundHalfAwayFromZero
  by_cases h : (0 : ℚ) ≤ (n : ℚ)
  · rw [if_pos h, Int.floor_eq_iff]
    constructor
    · linarith
    · linarith
  · rw [if_neg h, Int.ceil_eq_iff]
    constructor
    · linarith
    · linarith

example :
    EditorParameters.Save
      { virtualDesktopIdStr := some "vd"
        spanZonesAcrossMonitors := false
        useCursorposEditorStartupscreen := true
        processId := 7
        allMonitors := [(1, { szDevice := "DISPLAY1"
                              rcWork := ⟨0, 0, 1920, 1040⟩
                              rcMonitor := ⟨0, 0, 1920, 1080⟩ })]
        cursorMonitor := 1
        foregroundMonitor := 0
        getScreenDPIForMonitor := fun _ => some 96 } =
    some { processId := 7
           spanZonesAcrossMonitors := false
           monitors := [{
             monitorName := "DISPLAY1"
             virtualDesktop := "vd"
             dpi := 96
             top := 0
             left := 0
             workAreaWidth := 1920
             workAreaHeight := 1040
             monitorWidth := 1920
             monitorHeight := 1080
             isSelected := true }] } := by
  simp only [EditorParameters.Save, saveMonitors, monitorRecord, targetMonitor,
    FancyZonesUtils.GetDisplayDeviceId, FancyZonesUtils.TrimDeviceId,
    DPIAware.Convert, mapGet, mapBump]
  norm_num
  constructor
  · rw [show (1920 : ℚ) = ((1920 : ℤ) : ℚ) by norm_num]
    exact roundHalfAwayFromZero_intCast 1920
  · rw [show (1080 : ℚ) = ((1080 : ℤ) : ℚ) by norm_num]
    exact roundHalfAwayFromZero_intCast 1080

theorem save_nonspanned_eq (env : Env) (vd : String)
    (hv : env.virtualDesktopIdStr = some vd)
    (hs : env.spanZonesAcrossMonitors = false)
    (ht : targetMonitor env ≠ 0) :
    EditorParameters.Save env = some
      { processId := env.processId
        spanZonesAcrossMonitors := false
        monitors :=
          saveMonitors env vd (targetMonitor env) env.allMonitors [] } := by
  unfold EditorParameters.Save
  rw [hv]
  simp [hs, ht]

theorem saveMonitors_congr (env1 env2 : Env)
    (h : env1.getScreenDPIForMonitor = env2.getScreenDPIForMonitor)
    (vd : String) (tm : Nat) (l : List (Nat × MONITORINFOEX))
    (m : List (String × Nat)) :
    saveMonitors env1 vd tm l m = saveMonitors env2 vd tm l m := by
  induction l generalizing m with
  | nil => rfl
  | cons p rest ih =>
    obtain ⟨monitor, monitorInfo⟩ := p
    cases hq : env2.getScreenDPIForMonitor monitor with
    | none =>
      rw [saveMonitors_cons_none _ _ _ _ _ _ _ (by rw [h]; exact hq),
        saveMonitors_cons_none _ _ _ _ _ _ _ hq, ih]
    | some dpi =>
      rw [saveMonitors_cons_some _ _ _ _ _ _ _ _ (by rw [h]; exact hq),
        saveMonitors_cons_some _ _ _ _ _ _ _ _ hq, ih]
      simp [monitorRecord, DPIAware.Convert, h]

/-- C1: the top-level `Save` returns `false` (logging, no parameter file
written) exactly when the virtual-desktop identity cannot be resolved or,
in non-spanned mode, no target monitor handle can be resolved; in every
other case it returns `true` and writes the record.  The right-hand side
does not mention the DPI query, so per-monitor DPI failures never cause a
`false` return. -/
theorem save_false_iff_no_identity_or_no_target (env : Env) :
    EditorParameters.Save env = none ↔
      env.virtualDesktopIdStr = none ∨
        (env.spanZonesAcrossMonitors = false ∧ targetMonitor env = 0) := by
  unfold EditorParameters.Save
  cases hv : env.virtualDesktopIdStr with
  | none => simp
  | some vd =>
    rcases Bool.eq_false_or_eq_true env.spanZonesAcrossMonitors with hs | hs
    · by_cases ht : targetMonitor env = 0
      · simp [hs, ht]
      · simp [hs, ht]
    · simp [hs]

/-- C7: two `Save` runs over the same collaborator inputs, differing only
in the current process id, produce identical records modulo the
`processId` field (the device-id occurrence map is a fresh local per call,
so no state leaks between runs). -/
theorem save_two_runs_identical_modulo_pid (env : Env) (pid1 pid2 : Nat) :
    (EditorParameters.Save { env with processId := pid1 }).map stripPid =
      (EditorParameters.Save { env with processId := pid2 }).map stripPid := by
  obtain ⟨vdo, span, ucp, pid, mons, cur, fg, dpiq⟩ := env
  cases vdo with
  | none => rfl
  | some vd =>
    cases span with
    | true => simp [EditorParameters.Save, stripPid]
    | false =>
      simp only [EditorParameters.Save, targetMonitor]
      by_cases htm : (if ucp = true then cur else fg) = 0
      · simp [htm]
      · simp only [htm, if_neg htm, Option.map]
        simp [stripPid]
        exact saveMonitors_congr
          ⟨some vd, false, ucp, pid1, mons, cur, fg, dpiq⟩
          ⟨some vd, false, ucp, pid2, mons, cur, fg, dpiq⟩ rfl _ _ _ _

/-- C8: zero enumerated monitors is not an error: in non-spanned mode with
an available identity and a resolvable target monitor, `Save` succeeds and
writes a record with an empty `monitors` list. -/
theorem save_zero_monitors_empty_list (env : Env) (vd : String)
    (h0 : env.allMonitors = [])
    (hs : env.spanZonesAcrossMonitors = false)
    (hv : env.virtualDesktopIdStr = some vd)
    (ht : targetMonitor env ≠ 0) :
    EditorParameters.Save env = some
      { processId := env.processId
        spanZonesAcrossMonitors := false
        monitors := [] } := by
  rw [save_nonspanned_eq env vd hv hs ht, h0, saveMonitors_nil]

/-- Witness for C8: a concrete environment with zero monitors. -/
theorem save_zero_monitors_empty_list_witness :
    ({ virtualDesktopIdStr := some "vd"
       spanZonesAcrossMonitors := false
       useCursorposEditorStartupscreen := true
       processId := 42
       allMonitors := []
       cursorMonitor := 5
       foregroundMonitor := 0
       getScreenDPIForMonitor := fun _ => none } : Env).allMonitors = [] ∧
    EditorParameters.Save
      { virtualDesktopIdStr := some "vd"
        spanZonesAcrossMonitors := false
        useCursorposEditorStartupscreen := true
        processId := 42
        allMonitors := []
        cursorMonitor := 5
        foregroundMonitor := 0
        getScreenDPIForMonitor := fun _ => none } = some
      { processId := 42
        spanZonesAcrossMonitors := false
        monitors := [] } :=
  ⟨rfl, save_zero_monitors_empty_list _ "vd" rfl rfl rfl (by decide)⟩

/-- C9 (divergence witness): contrary to the claim that every
monitor-rectangle enumeration of a snapshot runs on the dedicated
DPI-unaware execution context, in spanned mode the combined full-bounds
enumeration `GetAllMonitorsCombinedRect<&MONITORINFOEX::rcMonitor>`
(line 109) is called directly on the caller's thread, outside the
DPI-unaware thread: the call trace of a spanned-mode `Save` contains a
rectangle enumeration executing on the caller's context. -/
theorem save_spanned_full_bounds_enum_on_caller_thread :
    ∃ e ∈ EditorParameters.SaveCallTrace
      { virtualDesktopIdStr := some "vd"
        spanZonesAcrossMonitors := true
        useCursorposEditorStartupscreen := true
        processId := 0
        allMonitors := []
        cursorMonitor := 1
        foregroundMonitor := 1
        getScreenDPIForMonitor := fun _ => some 96 },
      e.call.isRectEnumeration = true ∧ e.ctx = ExecCtx.callerThread := by
  decide

/-- C10: the device-id occurrence count is consumed before the DPI query,
so a monitor whose DPI query fails still advances the running count for
its base id: after the skipped monitor `bad`, the loop continues over the
remaining monitors with a map in which the count of `bad`'s device name is
one more than its occurrence count among the preceding monitors. -/
theorem skipped_monitor_advances_count (env : Env) (vd : String)
    (pre post : List (Nat × MONITORINFOEX)) (bad : Nat × MONITORINFOEX)
    (hv : env.virtualDesktopIdStr = some vd)
    (hs : env.spanZonesAcrossMonitors = false)
    (ht : targetMonitor env ≠ 0)
    (hm : env.allMonitors = pre ++ bad :: post)
    (hbad : env.getScreenDPIForMonitor bad.1 = none) :
    EditorParameters.Save env = some
      { processId := env.processId
        spanZonesAcrossMonitors := false
        monitors :=
          saveMonitors env vd (targetMonitor env) pre [] ++
            saveMonitors env vd (targetMonitor env) post
              (mapBump (idxMapAfter pre []) bad.2.szDevice) } ∧
    mapGet (mapBump (idxMapAfter pre []) bad.2.szDevice) bad.2.szDevice =
      deviceCount bad.2.szDevice pre + 1 := by
  constructor
  · rw [save_nonspanned_eq env vd hv hs ht, hm,
      saveMonitors_append]
    obtain ⟨badMonitor, badInfo⟩ := bad
    rw [saveMonitors_cons_none _ _ _ _ _ _ _ hbad]
  · rw [mapGet_mapBump_self, mapGet_idxMapAfter]
    simp [mapGet]

/-- Witness for C10: three monitors sharing device name `DISPLAY` where the
middle one fails its DPI query. -/
theorem skipped_monitor_advances_count_witness :
    ({ virtualDesktopIdStr := some "vd"
       spanZonesAcrossMonitors := false
       useCursorposEditorStartupscreen := true
       processId := 0
       allMonitors :=
         [(1, ⟨"DISPLAY", ⟨0, 0, 10, 10⟩, ⟨0, 0, 10, 10⟩⟩),
          (2, ⟨"DISPLAY", ⟨10, 0, 20, 10⟩, ⟨10, 0, 20, 10⟩⟩),
          (3, ⟨"DISPLAY", ⟨20, 0, 30, 10⟩, ⟨20, 0, 30, 10⟩⟩)]
       cursorMonitor := 1
       foregroundMonitor := 0
       getScreenDPIForMonitor := fun m => if m = 2 then none else some 96 }
        : Env).getScreenDPIForMonitor 2 = none ∧
    (EditorParameters.Save
      { virtualDesktopIdStr := some "vd"
        spanZonesAcrossMonitors := false
        useCursorposEditorStartupscreen := true
        processId := 0
        allMonitors :=
          [(1, ⟨"DISPLAY", ⟨0, 0, 10, 10⟩, ⟨0, 0, 10, 10⟩⟩),
           (2, ⟨"DISPLAY", ⟨10, 0, 20, 10⟩, ⟨10, 0, 20, 10⟩⟩),
           (3, ⟨"DISPLAY", ⟨20, 0, 30, 10⟩, ⟨20, 0, 30, 10⟩⟩)]
        cursorMonitor := 1
        foregroundMonitor := 0
        getScreenDPIForMonitor := fun m => if m = 2 then none else some 96 }
      = some
      { processId := 0
        spanZonesAcrossMonitors := false
        monitors :=
          saveMonitors
            { virtualDesktopIdStr := some "vd"
              spanZonesAcrossMonitors := false
              useCursorposEditorStartupscreen := true
              processId := 0
              allMonitors :=
                [(1, ⟨"DISPLAY", ⟨0, 0, 10, 10⟩, ⟨0, 0, 10, 10⟩⟩),
                 (2, ⟨"DISPLAY", ⟨10, 0, 20, 10⟩, ⟨10, 0, 20, 10⟩⟩),
                 (3, ⟨"DISPLAY", ⟨20, 0, 30, 10⟩, ⟨20, 0, 30, 10⟩⟩)]
              cursorMonitor := 1
              foregroundMonitor := 0
              getScreenDPIForMonitor := fun m => if m = 2 then none else some 96 }
            "vd" 1 [(1, ⟨"DISPLAY", ⟨0, 0, 10, 10⟩, ⟨0, 0, 10, 10⟩⟩)] [] ++
          saveMonitors
            { virtualDesktopIdStr := some "vd"
              spanZonesAcrossMonitors := false
              useCursorposEditorStartupscreen := true
              processId := 0
              allMonitors :=
                [(1, ⟨"DISPLAY", ⟨0, 0, 10, 10⟩, ⟨0, 0, 10, 10⟩⟩),
                 (2, ⟨"DISPLAY", ⟨10, 0, 20, 10⟩, ⟨10, 0, 20, 10⟩⟩),
                 (3, ⟨"DISPLAY", ⟨20, 0, 30, 10⟩, ⟨20, 0, 30, 10⟩⟩)]
              cursorMonitor := 1
              foregroundMonitor := 0
              getScreenDPIForMonitor := fun m => if m = 2 then none else some 96 }
            "vd" 1 [(3, ⟨"DISPLAY", ⟨20, 0, 30, 10⟩, ⟨20, 0, 30, 10⟩⟩)]
            (mapBump (idxMapAfter
              [(1, ⟨"DISPLAY", ⟨0, 0, 10, 10⟩, ⟨0, 0, 10, 10⟩⟩)] []) "DISPLAY") }) ∧
    mapGet (mapBump (idxMapAfter
        [(1, ⟨"DISPLAY", ⟨0, 0, 10, 10⟩, ⟨0, 0, 10, 10⟩⟩)] []) "DISPLAY")
      "DISPLAY" = 2 :=
  ⟨rfl,
   (skipped_monitor_advances_count _ "vd"
      [(1, ⟨"DISPLAY", ⟨0, 0, 10, 10⟩, ⟨0, 0, 10, 10⟩⟩)]
      [(3, ⟨"DISPLAY", ⟨20, 0, 30, 10⟩, ⟨20, 0, 30, 10⟩⟩)]
      (2, ⟨"DISPLAY", ⟨10, 0, 20, 10⟩, ⟨10, 0, 20, 10⟩⟩)
      rfl rfl (by decide) rfl rfl).1,
   by decide⟩

example :
    (saveMonitors
      { virtualDesktopIdStr := some "vd"
        spanZonesAcrossMonitors := false
        useCursorposEditorStartupscreen := true
        processId := 0
        allMonitors := []
        cursorMonitor := 1
        foregroundMonitor := 0
        getScreenDPIForMonitor := fun m => if m = 2 then none else some 96 }
      "vd" 1
      [(1, ⟨"DISPLAY", ⟨0, 0, 10, 10⟩, ⟨0, 0, 10, 10⟩⟩),
       (2, ⟨"DISPLAY", ⟨10, 0, 20, 10⟩, ⟨10, 0, 20, 10⟩⟩),
       (3, ⟨"DISPLAY", ⟨20, 0, 30, 10⟩, ⟨20, 0, 30, 10⟩⟩)] []).map
      (fun r => r.monitorName) = ["DISPLAY", "DISPLAY_2"] := by decide

theorem getAllMonitorsCombinedRect_cons (r : Rect) (rs : List Rect) :
    FancyZonesUtils.GetAllMonitorsCombinedRect (r :: rs) =
      { left := (rs.map Rect.left).foldl min r.left
        top := (rs.map Rect.top).foldl min r.top
        right := (rs.map Rect.right).foldl max r.right
        bottom := (rs.map Rect.bottom).foldl max r.bottom } := by
  induction rs generalizing r with
  | nil => rfl
  | cons b bs ih =>
    have h1 : FancyZonesUtils.GetAllMonitorsCombinedRect (r :: b :: bs) =
        FancyZonesUtils.GetAllMonitorsCombinedRect
          (FancyZonesUtils.UnionRect r b :: bs) := rfl
    rw [h1, ih]
    simp [FancyZonesUtils.UnionRect]

/-- C3: a spanned-mode snapshot emits exactly one synthetic record: its
name is the reserved all-monitors marker, it is selected, its dpi is `0`,
its work-area fields are the bounding union of all monitors' work areas
(min of lefts/tops, max of rights/bottoms) and its monitor width/height
are the bounding union of all monitors' full bounds. -/
theorem save_spanned_single_union_record (env : Env) (vd : String)
    (q : Nat × MONITORINFOEX) (qs : List (Nat × MONITORINFOEX))
    (hv : env.virtualDesktopIdStr = some vd)
    (hs : env.spanZonesAcrossMonitors = true)
    (hm : env.allMonitors = q :: qs) :
    EditorParameters.Save env = some
      { processId := env.processId
        spanZonesAcrossMonitors := true
        monitors := [{
          monitorName := ZonedWindowProperties.MultiMonitorDeviceID
          virtualDesktop := vd
          dpi := 0
          top := (qs.map (fun p => p.2.rcWork.top)).foldl min q.2.rcWork.top
          left := (qs.map (fun p => p.2.rcWork.left)).foldl min q.2.rcWork.left
          workAreaWidth :=
            (qs.map (fun p => p.2.rcWork.right)).foldl max q.2.rcWork.right -
              (qs.map (fun p => p.2.rcWork.left)).foldl min q.2.rcWork.left
          workAreaHeight :=
            (qs.map (fun p => p.2.rcWork.bottom)).foldl max q.2.rcWork.bottom -
              (qs.map (fun p => p.2.rcWork.top)).foldl min q.2.rcWork.top
          monitorWidth :=
            (qs.map (fun p => p.2.rcMonitor.right)).foldl max
                q.2.rcMonitor.right -
              (qs.map (fun p => p.2.rcMonitor.left)).foldl min
                q.2.rcMonitor.left
          monitorHeight :=
            (qs.map (fun p => p.2.rcMonitor.bottom)).foldl max
                q.2.rcMonitor.bottom -
              (qs.map (fun p => p.2.rcMonitor.top)).foldl min
                q.2.rcMonitor.top
          isSelected := true }] } := by
  unfold EditorParameters.Save
  rw [hv]
  simp only [Option.some.injEq, hs, if_true, hm, List.map_cons,
    getAllMonitorsCombinedRect_cons]
  simp [List.map_map, Function.comp_def]

/-- Witness for C3: the spec's spanned scenario, two monitors with work
areas `(0,0,1920,1040)` and `(1920,0,3840,1040)`. -/
theorem save_spanned_single_union_record_witness :
    ({ virtualDesktopIdStr := some "vd"
       spanZonesAcrossMonitors := true
       useCursorposEditorStartupscreen := true
       processId := 3
       allMonitors :=
         [(1, ⟨"DISPLAY1", ⟨0, 0, 1920, 1040⟩, ⟨0, 0, 1920, 1080⟩⟩),
          (2, ⟨"DISPLAY2", ⟨1920, 0, 3840, 1040⟩, ⟨1920, 0, 3840, 1080⟩⟩)]
       cursorMonitor := 1
       foregroundMonitor := 1
       getScreenDPIForMonitor := fun _ => some 96 } : Env).spanZonesAcrossMonitors
      = true ∧
    EditorParameters.Save
      { virtualDesktopIdStr := some "vd"
        spanZonesAcrossMonitors := true
        useCursorposEditorStartupscreen := true
        processId := 3
        allMonitors :=
          [(1, ⟨"DISPLAY1", ⟨0, 0, 1920, 1040⟩, ⟨0, 0, 1920, 1080⟩⟩),
           (2, ⟨"DISPLAY2", ⟨1920, 0, 3840, 1040⟩, ⟨1920, 0, 3840, 1080⟩⟩)]
        cursorMonitor := 1
        foregroundMonitor := 1
        getScreenDPIForMonitor := fun _ => some 96 } = some
      { processId := 3
        spanZonesAcrossMonitors := true
        monitors := [{
          monitorName := ZonedWindowProperties.MultiMonitorDeviceID
          virtualDesktop := "vd"
          dpi := 0
          top := ([(2, (⟨"DISPLAY2", ⟨1920, 0, 3840, 1040⟩,
                    ⟨1920, 0, 3840, 1080⟩⟩ : MONITORINFOEX))].map
              (fun p => p.2.rcWork.top)).foldl min 0
          left := ([(2, (⟨"DISPLAY2", ⟨1920, 0, 3840, 1040⟩,
                    ⟨1920, 0, 3840, 1080⟩⟩ : MONITORINFOEX))].map
              (fun p => p.2.rcWork.left)).foldl min 0
          workAreaWidth :=
            ([(2, (⟨"DISPLAY2", ⟨1920, 0, 3840, 1040⟩,
                    ⟨1920, 0, 3840, 1080⟩⟩ : MONITORINFOEX))].map
                (fun p => p.2.rcWork.right)).foldl max 1920 -
              ([(2, (⟨"DISPLAY2", ⟨1920, 0, 3840, 1040⟩,
                    ⟨1920, 0, 3840, 1080⟩⟩ : MONITORINFOEX))].map
                (fun p => p.2.rcWork.left)).foldl min 0
          workAreaHeight :=
            ([(2, (⟨"DISPLAY2", ⟨1920, 0, 3840, 1040⟩,
                    ⟨1920, 0, 3840, 1080⟩⟩ : MONITORINFOEX))].map
                (fun p => p.2.rcWork.bottom)).foldl max 1040 -
              ([(2, (⟨"DISPLAY2", ⟨1920, 0, 3840, 1040⟩,
                    ⟨1920, 0, 3840, 1080⟩⟩ : MONITORINFOEX))].map
                (fun p => p.2.rcWork.top)).foldl min 0
          monitorWidth :=
            ([(2, (⟨"DISPLAY2", ⟨1920, 0, 3840, 1040⟩,
                    ⟨1920, 0, 3840, 1080⟩⟩ : MONITORINFOEX))].map
                (fun p => p.2.rcMonitor.right)).foldl max 1920 -
              ([(2, (⟨"DISPLAY2", ⟨1920, 0, 3840, 1040⟩,
                    ⟨1920, 0, 3840, 1080⟩⟩ : MONITORINFOEX))].map
                (fun p => p.2.rcMonitor.left)).foldl min 0
          monitorHeight :=
            ([(2, (⟨"DISPLAY2", ⟨1920, 0, 3840, 1040⟩,
                    ⟨1920, 0, 3840, 1080⟩⟩ : MONITORINFOEX))].map
                (fun p => p.2.rcMonitor.bottom)).foldl max 1080 -
              ([(2, (⟨"DISPLAY2", ⟨1920, 0, 3840, 1040⟩,
                    ⟨1920, 0, 3840, 1080⟩⟩ : MONITORINFOEX))].map
                (fun p => p.2.rcMonitor.top)).foldl min 0
          isSelected := true }] } :=
  ⟨rfl,
   save_spanned_single_union_record _ "vd"
     (1, ⟨"DISPLAY1", ⟨0, 0, 1920, 1040⟩, ⟨0, 0, 1920, 1080⟩⟩)
     [(2, ⟨"DISPLAY2", ⟨1920, 0, 3840, 1040⟩, ⟨1920, 0, 3840, 1080⟩⟩)]
     rfl rfl rfl⟩

example :
    EditorParameters.Save
      { virtualDesktopIdStr := some "vd"
        spanZonesAcrossMonitors := true
        useCursorposEditorStartupscreen := true
        processId := 3
        allMonitors :=
          [(1, ⟨"DISPLAY1", ⟨0, 0, 1920, 1040⟩, ⟨0, 0, 1920, 1080⟩⟩),
           (2, ⟨"DISPLAY2", ⟨1920, 0, 3840, 1040⟩, ⟨1920, 0, 3840, 1080⟩⟩)]
        cursorMonitor := 1
        foregroundMonitor := 1
        getScreenDPIForMonitor := fun _ => some 96 } = some
      { processId := 3
        spanZonesAcrossMonitors := true
        monitors := [{
          monitorName := "FancyZones#MultiMonitorDevice"
          virtualDesktop := "vd"
          dpi := 0
          top := 0
          left := 0
          workAreaWidth := 3840
          workAreaHeight := 1040
          monitorWidth := 3840
          monitorHeight := 1080
          isSelected := true }] } := by decide

/-- C4: a monitor whose DPI query fails is omitted entirely from the
emitted monitors sequence, the snapshot continues with the remaining
monitors, and every other monitor's record — its is-selected flag
included — is unaffected: up to the `monitorName` field (whose
disambiguation suffix may reflect the skipped duplicate), `Save` emits
exactly what it would emit had the failing monitor not been enumerated at
all. -/
theorem save_dpi_failed_monitor_omitted (env : Env)
    (pre post : List (Nat × MONITORINFOEX)) (bad : Nat × MONITORINFOEX)
    (hm : env.allMonitors = pre ++ bad :: post)
    (hbad : env.getScreenDPIForMonitor bad.1 = none)
    (hs : env.spanZonesAcrossMonitors = false) :
    (EditorParameters.Save env).map (fun a => a.monitors.map stripName) =
      (EditorParameters.Save { env with allMonitors := pre ++ post }).map
        (fun a => a.monitors.map stripName) := by
  obtain ⟨badM, badI⟩ := bad
  obtain ⟨vdo, span, ucp, pid, mons, cur, fg, dpiq⟩ := env
  simp only at hm hbad hs
  subst hm
  subst hs
  cases vdo with
  | none => rfl
  | some vd =>
    simp only [EditorParameters.Save, targetMonitor]
    by_cases htm : (if ucp = true then cur else fg) = 0
    · simp [htm]
    · simp only [htm, if_neg htm, Option.map_some, Bool.false_eq_true,
        if_false]
      have hcongr : saveMonitors
          ⟨some vd, false, ucp, pid, pre ++ post, cur, fg, dpiq⟩ vd
            (if ucp = true then cur else fg) (pre ++ post) [] =
          saveMonitors
          ⟨some vd, false, ucp, pid, pre ++ (badM, badI) :: post, cur, fg,
            dpiq⟩ vd (if ucp = true then cur else fg) (pre ++ post) [] :=
        saveMonitors_congr
          ⟨some vd, false, ucp, pid, pre ++ post, cur, fg, dpiq⟩
          ⟨some vd, false, ucp, pid, pre ++ (badM, badI) :: post, cur, fg,
            dpiq⟩ rfl _ _ _ _
      simp only [hcongr]
      rw [saveMonitors_append, saveMonitors_append,
        saveMonitors_cons_none _ _ _ _ _ _ _ hbad]
      simp only [Option.map_some', List.map_append]
      rw [map_stripName_saveMonitors _ _ _ _
        (mapBump (idxMapAfter pre []) badI.szDevice) (idxMapAfter pre [])]

/-- Witness for C4: three monitors where the middle one fails its DPI
query; the output (names erased) equals the output without that monitor. -/
theorem save_dpi_failed_monitor_omitted_witness :
    ({ virtualDesktopIdStr := some "vd"
       spanZonesAcrossMonitors := false
       useCursorposEditorStartupscreen := false
       processId := 9
       allMonitors :=
         [(1, ⟨"A", ⟨0, 0, 10, 10⟩, ⟨0, 0, 10, 10⟩⟩),
          (2, ⟨"A", ⟨10, 0, 20, 10⟩, ⟨10, 0, 20, 10⟩⟩),
          (3, ⟨"B", ⟨20, 0, 30, 10⟩, ⟨20, 0, 30, 10⟩⟩)]
       cursorMonitor := 0
       foregroundMonitor := 3
       getScreenDPIForMonitor := fun m => if m = 2 then none else some 96 }
        : Env).getScreenDPIForMonitor 2 = none ∧
    Option.map (fun a => a.monitors.map stripName)
      (EditorParameters.Save
        { virtualDesktopIdStr := some "vd"
          spanZonesAcrossMonitors := false
          useCursorposEditorStartupscreen := false
          processId := 9
          allMonitors :=
            [(1, ⟨"A", ⟨0, 0, 10, 10⟩, ⟨0, 0, 10, 10⟩⟩),
             (2, ⟨"A", ⟨10, 0, 20, 10⟩, ⟨10, 0, 20, 10⟩⟩),
             (3, ⟨"B", ⟨20, 0, 30, 10⟩, ⟨20, 0, 30, 10⟩⟩)]
          cursorMonitor := 0
          foregroundMonitor := 3
          getScreenDPIForMonitor :=
            fun m => if m = 2 then none else some 96 }) =
      Option.map (fun a => a.monitors.map stripName)
        (EditorParameters.Save
          { virtualDesktopIdStr := some "vd"
            spanZonesAcrossMonitors := false
            useCursorposEditorStartupscreen := false
            processId := 9
            allMonitors :=
              [(1, ⟨"A", ⟨0, 0, 10, 10⟩, ⟨0, 0, 10, 10⟩⟩),
               (3, ⟨"B", ⟨20, 0, 30, 10⟩, ⟨20, 0, 30, 10⟩⟩)]
            cursorMonitor := 0
            foregroundMonitor := 3
            getScreenDPIForMonitor :=
              fun m => if m = 2 then none else some 96 }) :=
  ⟨rfl,
   save_dpi_failed_monitor_omitted _
     [(1, ⟨"A", ⟨0, 0, 10, 10⟩, ⟨0, 0, 10, 10⟩⟩)]
     [(3, ⟨"B", ⟨20, 0, 30, 10⟩, ⟨20, 0, 30, 10⟩⟩)]
     (2, ⟨"A", ⟨10, 0, 20, 10⟩, ⟨10, 0, 20, 10⟩⟩) rfl rfl rfl⟩

theorem countP_handle_unique (l : List (Nat × MONITORINFOEX)) (tm : Nat)
    (g : Nat → Bool) (t : Nat × MONITORINFOEX)
    (hnd : (l.map Prod.fst).Nodup) (hmem : t ∈ l) (htm : t.1 = tm)
    (hg : g tm = true) :
    l.countP (fun p => decide (p.1 = tm) && g p.1) = 1 := by
  induction l with
  | nil => simp at hmem
  | cons q rest ih =>
    rw [List.map_cons, List.nodup_cons] at hnd
    obtain ⟨hq, hrest⟩ := hnd
    rcases List.mem_cons.mp hmem with rfl | hmem2
    · rw [List.countP_cons]
      have hzero : rest.countP (fun p => decide (p.1 = tm) && g p.1) = 0 := by
        rw [List.countP_eq_zero]
        intro p hp
        simp only [Bool.and_eq_true, decide_eq_true_eq, not_and]
        intro h1 _
        exact absurd (h1 ▸ List.mem_map_of_mem Prod.fst hp) (htm ▸ hq)
      rw [hzero]
      simp [htm, hg]
    · have hq1 : ¬(q.1 = tm) := by
        intro h
        exact hq ((h.trans htm.symm) ▸ List.mem_map_of_mem Prod.fst hmem2)
      rw [List.countP_cons, ih hrest hmem2]
      simp [hq1]

/-- C2 counterexample: a successfully completed non-spanned snapshot in
which the selection target (the only monitor) fails its DPI query: `Save`
returns `true` and writes the record, yet no emitted monitor record has
`isSelected = true`, so it is not the case that exactly one does. -/
theorem save_exactly_one_selected_counterexample :
    Option.map (fun a => a.monitors.countP (fun r => r.isSelected))
      (EditorParameters.Save
        { virtualDesktopIdStr := some "vd"
          spanZonesAcrossMonitors := false
          useCursorposEditorStartupscreen := true
          processId := 1
          allMonitors := [(1, ⟨"DISPLAY1", ⟨0, 0, 10, 10⟩, ⟨0, 0, 10, 10⟩⟩)]
          cursorMonitor := 1
          foregroundMonitor := 0
          getScreenDPIForMonitor := fun _ => none }) = some 0 := by decide

/-- C2 (amended): in a successfully completed non-spanned snapshot,
provided the enumerated monitor handles are distinct, the selection
policy's chosen handle is among them and that monitor's DPI query
succeeds, exactly one emitted record has `isSelected = true`, and any
selected record carries the chosen monitor's data (its dpi and raw
work-area geometry). -/
theorem save_exactly_one_selected (env : Env) (vd : String)
    (t : Nat × MONITORINFOEX) (d : Nat)
    (hv : env.virtualDesktopIdStr = some vd)
    (hs : env.spanZonesAcrossMonitors = false)
    (ht0 : targetMonitor env ≠ 0)
    (hmem : t ∈ env.allMonitors)
    (htm : t.1 = targetMonitor env)
    (hnd : (env.allMonitors.map Prod.fst).Nodup)
    (hd : env.getScreenDPIForMonitor t.1 = some d) :
    ∃ args, EditorParameters.Save env = some args ∧
      args.monitors.countP (fun r => r.isSelected) = 1 ∧
      ∀ r ∈ args.monitors, r.isSelected = true →
        r.dpi = (d : Int) ∧ r.top = t.2.rcWork.top ∧
        r.left = t.2.rcWork.left ∧
        r.workAreaWidth = t.2.rcWork.right - t.2.rcWork.left ∧
        r.workAreaHeight = t.2.rcWork.bottom - t.2.rcWork.top := by
  refine ⟨_, save_nonspanned_eq env vd hv hs ht0, ?_, ?_⟩
  · rw [countP_isSelected_saveMonitors]
    refine countP_handle_unique _ _
      (fun h => (env.getScreenDPIForMonitor h).isSome) t hnd hmem htm ?_
    rw [← htm]
    simp [hd]
  · intro r hr hsel
    obtain ⟨p, hp, dpi2, hdpi2, name, rfl⟩ := mem_saveMonitors _ _ _ _ _ _ hr
    have hp1 : p.1 = targetMonitor env := by
      simpa [monitorRecord] using hsel
    have hpt : p = t :=
      List.inj_on_of_nodup_map hnd hp hmem (hp1.trans htm.symm)
    subst hpt
    rw [hd] at hdpi2
    injection hdpi2 with hdd
    subst hdd
    simp [monitorRecord]

/-- Witness for the amended C2: two distinct monitors, cursor-based
selection choosing handle 1, all DPI queries succeeding. -/
theorem save_exactly_one_selected_witness :
    (1, (⟨"DISPLAY1", ⟨0, 0, 10, 10⟩, ⟨0, 0, 10, 10⟩⟩ : MONITORINFOEX)) ∈
      ({ virtualDesktopIdStr := some "vd"
         spanZonesAcrossMonitors := false
         useCursorposEditorStartupscreen := true
         processId := 1
         allMonitors :=
           [(1, ⟨"DISPLAY1", ⟨0, 0, 10, 10⟩, ⟨0, 0, 10, 10⟩⟩),
            (2, ⟨"DISPLAY2", ⟨10, 0, 20, 10⟩, ⟨10, 0, 20, 10⟩⟩)]
         cursorMonitor := 1
         foregroundMonitor := 0
         getScreenDPIForMonitor := fun _ => some 96 } : Env).allMonitors ∧
    ∃ args, EditorParameters.Save
      { virtualDesktopIdStr := some "vd"
        spanZonesAcrossMonitors := false
        useCursorposEditorStartupscreen := true
        processId := 1
        allMonitors :=
          [(1, ⟨"DISPLAY1", ⟨0, 0, 10, 10⟩, ⟨0, 0, 10, 10⟩⟩),
           (2, ⟨"DISPLAY2", ⟨10, 0, 20, 10⟩, ⟨10, 0, 20, 10⟩⟩)]
        cursorMonitor := 1
        foregroundMonitor := 0
        getScreenDPIForMonitor := fun _ => some 96 } = some args ∧
      args.monitors.countP (fun r => r.isSelected) = 1 ∧
      ∀ r ∈ args.monitors, r.isSelected = true →
        r.dpi = ((96 : Nat) : Int) ∧ r.top = 0 ∧ r.left = 0 ∧
        r.workAreaWidth = 10 - 0 ∧ r.workAreaHeight = 10 - 0 :=
  ⟨by decide,
   save_exactly_one_selected _ "vd"
     (1, ⟨"DISPLAY1", ⟨0, 0, 10, 10⟩, ⟨0, 0, 10, 10⟩⟩) 96
     rfl rfl (by decide) (by decide) rfl (by decide) rfl⟩

/-- C6: every record of a non-spanned snapshot stores the raw DPI-unaware
work-area rectangle (top/left as-is, width/height by subtracting rectangle
edges), while the stored monitor width/height are the full-bounds
dimensions converted to DPI-aware units through the monitor's scale
factor (multiplication by `96 / dpi`) and then rounded to the nearest
integer, half away from zero. -/
theorem save_geometry_fields (env : Env) (vd : String)
    (hv : env.virtualDesktopIdStr = some vd)
    (hs : env.spanZonesAcrossMonitors = false)
    (ht0 : targetMonitor env ≠ 0) :
    ∃ args, EditorParameters.Save env = some args ∧
      ∀ r ∈ args.monitors, ∃ p ∈ env.allMonitors, ∃ dpi,
        env.getScreenDPIForMonitor p.1 = some dpi ∧
        r.dpi = (dpi : Int) ∧
        r.top = p.2.rcWork.top ∧ r.left = p.2.rcWork.left ∧
        r.workAreaWidth = p.2.rcWork.right - p.2.rcWork.left ∧
        r.workAreaHeight = p.2.rcWork.bottom - p.2.rcWork.top ∧
        r.monitorWidth = roundHalfAwayFromZero
          (((p.2.rcMonitor.right - p.2.rcMonitor.left : Int) : ℚ) * 96 /
            (dpi : ℚ)) ∧
        r.monitorHeight = roundHalfAwayFromZero
          (((p.2.rcMonitor.bottom - p.2.rcMonitor.top : Int) : ℚ) * 96 /
            (dpi : ℚ)) := by
  refine ⟨_, save_nonspanned_eq env vd hv hs ht0, ?_⟩
  intro r hr
  obtain ⟨p, hp, dpi, hdpi, name, rfl⟩ := mem_saveMonitors _ _ _ _ _ _ hr
  refine ⟨p, hp, dpi, hdpi, ?_⟩
  simp [monitorRecord, DPIAware.Convert, hdpi]

/-- Witness for C6: one monitor at 133% scale (dpi 128). -/
theorem save_geometry_fields_witness :
    targetMonitor
      { virtualDesktopIdStr := some "vd"
        spanZonesAcrossMonitors := false
        useCursorposEditorStartupscreen := false
        processId := 5
        allMonitors := [(4, ⟨"DISPLAY1", ⟨0, 0, 1920, 1040⟩,
          ⟨0, 0, 2, 6⟩⟩)]
        cursorMonitor := 0
        foregroundMonitor := 4
        getScreenDPIForMonitor := fun _ => some 128 } ≠ 0 ∧
    ∃ args, EditorParameters.Save
      { virtualDesktopIdStr := some "vd"
        spanZonesAcrossMonitors := false
        useCursorposEditorStartupscreen := false
        processId := 5
        allMonitors := [(4, ⟨"DISPLAY1", ⟨0, 0, 1920, 1040⟩,
          ⟨0, 0, 2, 6⟩⟩)]
        cursorMonitor := 0
        foregroundMonitor := 4
        getScreenDPIForMonitor := fun _ => some 128 } = some args ∧
      ∀ r ∈ args.monitors, ∃ p ∈
        [((4 : Nat), (⟨"DISPLAY1", ⟨0, 0, 1920, 1040⟩,
          ⟨0, 0, 2, 6⟩⟩ : MONITORINFOEX))], ∃ dpi,
        (some 128 : Option Nat) = some dpi ∧
        r.dpi = (dpi : Int) ∧
        r.top = p.2.rcWork.top ∧ r.left = p.2.rcWork.left ∧
        r.workAreaWidth = p.2.rcWork.right - p.2.rcWork.left ∧
        r.workAreaHeight = p.2.rcWork.bottom - p.2.rcWork.top ∧
        r.monitorWidth = roundHalfAwayFromZero
          (((p.2.rcMonitor.right - p.2.rcMonitor.left : Int) : ℚ) * 96 /
            (dpi : ℚ)) ∧
        r.monitorHeight = roundHalfAwayFromZero
          (((p.2.rcMonitor.bottom - p.2.rcMonitor.top : Int) : ℚ) * 96 /
            (dpi : ℚ)) :=
  ⟨by decide, save_geometry_fields
    { virtualDesktopIdStr := some "vd"
      spanZonesAcrossMonitors := false
      useCursorposEditorStartupscreen := false
      processId := 5
      allMonitors := [(4, ⟨"DISPLAY1", ⟨0, 0, 1920, 1040⟩,
        ⟨0, 0, 2, 6⟩⟩)]
      cursorMonitor := 0
      foregroundMonitor := 4
      getScreenDPIForMonitor := fun _ => some 128 }
    "vd" rfl rfl (by decide)⟩

example :
    Option.map
      (fun a => a.monitors.map (fun r => (r.monitorWidth, r.monitorHeight)))
      (EditorParameters.Save
        { virtualDesktopIdStr := some "vd"
          spanZonesAcrossMonitors := false
          useCursorposEditorStartupscreen := false
          processId := 5
          allMonitors := [(4, ⟨"DISPLAY1", ⟨0, 0, 1920, 1040⟩,
            ⟨0, 0, 2, 6⟩⟩)]
          cursorMonitor := 0
          foregroundMonitor := 4
          getScreenDPIForMonitor := fun _ => some 128 }) =
      some [(2, 5)] := by
  simp only [EditorParameters.Save, saveMonitors, monitorRecord,
    targetMonitor, FancyZonesUtils.GetDisplayDeviceId,
    FancyZonesUtils.TrimDeviceId, DPIAware.Convert, mapGet, mapBump]
  norm_num [roundHalfAwayFromZero]

theorem natDigitsAux_eq_digits (fuel : Nat) :
    ∀ n, n ≤ fuel → natDigitsAux fuel n = Nat.digits 10 n := by
  induction fuel with
  | zero =>
    intro n hn
    have h0 : n = 0 := Nat.le_zero.mp hn
    subst h0
    simp [natDigitsAux]
  | succ f ih =>
    intro n hn
    cases n with
    | zero => simp [natDigitsAux]
    | succ m =>
      have hdiv : (m + 1) / 10 ≤ f := by
        have := Nat.div_lt_self (Nat.succ_pos m) (by norm_num : 1 < 10)
        omega
      rw [show natDigitsAux (f + 1) (m + 1) =
          (m + 1) % 10 :: natDigitsAux f ((m + 1) / 10) from rfl,
        ih ((m + 1) / 10) hdiv,
        Nat.digits_def' (by norm_num : 1 < 10) (Nat.succ_pos m)]

theorem natDigits_eq_digits (n : Nat) : natDigits n = Nat.digits 10 n :=
  natDigitsAux_eq_digits n n le_rfl

theorem digitChar_inj_lt :
    ∀ a, a < 10 → ∀ b, b < 10 → digitChar a = digitChar b → a = b := by
  decide

theorem map_digitChar_inj :
    ∀ l1 l2 : List Nat, (∀ x ∈ l1, x < 10) → (∀ x ∈ l2, x < 10) →
      l1.map digitChar = l2.map digitChar → l1 = l2
  | [], [], _, _, _ => rfl
  | [], _ :: _, _, _, h => by simp at h
  | _ :: _, [], _, _, h => by simp at h
  | a :: l1, b :: l2, h1, h2, h => by
    simp only [List.map_cons, List.cons.injEq] at h
    have ha := h1 a (List.mem_cons_self _ _)
    have hb := h2 b (List.mem_cons_self _ _)
    have hab : a = b := digitChar_inj_lt a ha b hb h.1
    subst hab
    have htail := map_digitChar_inj l1 l2
      (fun x hx => h1 x (List.mem_cons_of_mem _ hx))
      (fun x hx => h2 x (List.mem_cons_of_mem _ hx)) h.2
    rw [htail]

theorem natStr_inj (m n : Nat) (hm : m ≠ 0) (hn : n ≠ 0)
    (h : natStr m = natStr n) : m = n := by
  unfold natStr at h
  rw [if_neg hm, if_neg hn] at h
  have h2 : ((natDigits m).map digitChar).reverse =
      ((natDigits n).map digitChar).reverse := congrArg String.data h
  have h3 := List.reverse_injective h2
  rw [natDigits_eq_digits, natDigits_eq_digits] at h3
  have h4 := map_digitChar_inj _ _
    (fun x hx => Nat.digits_lt_base (by norm_num) hx)
    (fun x hx => Nat.digits_lt_base (by norm_num) hx) h3
  exact Nat.digits.injective 10 h4

theorem strLength_append (a b : String) :
    (a ++ b).length = a.length + b.length := by
  show ((a ++ b).data).length = _
  rw [show (a ++ b).data = a.data ++ b.data from rfl, List.length_append]
  rfl

theorem strAppend_left_cancel (a b c : String) (h : a ++ b = a ++ c) :
    b = c := by
  have hd : (a ++ b).data = (a ++ c).data := by rw [h]
  have h2 : a.data ++ b.data = a.data ++ c.data := hd
  have h3 := List.append_cancel_left h2
  cases b
  cases c
  exact congrArg String.mk h3

theorem base_ne_suffixed (s x : String) : s ≠ s ++ "_" ++ x := by
  intro h
  have hlen := congrArg String.length h
  rw [strLength_append, strLength_append] at hlen
  have hu : ("_" : String).length = 1 := by decide
  omega

/-- C5: in a non-spanned snapshot, two monitors sharing the same base
device identifier receive distinct emitted monitor names (the
occurrence-count map starts empty for each `Save` call, so counts are
scoped to the single snapshot): the earlier one — if it is the first
occurrence of that base id — keeps the untouched (trimmed) base id, and
the later one carries an index suffix whose count is at least one and
exceeds the earlier one's. -/
theorem save_duplicate_names_distinct (env : Env) (vd : String)
    (l1 l2 l3 : List (Nat × MONITORINFOEX)) (a b : Nat × MONITORINFOEX)
    (da db : Nat)
    (hv : env.virtualDesktopIdStr = some vd)
    (hs : env.spanZonesAcrossMonitors = false)
    (ht0 : targetMonitor env ≠ 0)
    (hm : env.allMonitors = l1 ++ a :: (l2 ++ b :: l3))
    (hd : a.2.szDevice = b.2.szDevice)
    (ha : env.getScreenDPIForMonitor a.1 = some da)
    (hb : env.getScreenDPIForMonitor b.1 = some db) :
    ∃ args, EditorParameters.Save env = some args ∧
    ∃ pre mid suf na nb,
      args.monitors =
        pre ++ monitorRecord env vd (targetMonitor env) a.1 a.2 da na ::
          (mid ++ monitorRecord env vd (targetMonitor env) b.1 b.2 db nb ::
            suf) ∧
      FancyZonesUtils.TrimDeviceId na ≠ FancyZonesUtils.TrimDeviceId nb ∧
      (deviceCount a.2.szDevice l1 = 0 → na = a.2.szDevice) ∧
      ∃ c, 1 ≤ c ∧ nb = b.2.szDevice ++ "_" ++ natStr c := by
  obtain ⟨aM, aI⟩ := a
  obtain ⟨bM, bI⟩ := b
  simp only at hd ha hb hm ⊢
  refine ⟨_, save_nonspanned_eq env vd hv hs ht0, ?_⟩
  rw [hm, saveMonitors_append, saveMonitors_cons_some _ _ _ _ _ _ _ _ ha,
    saveMonitors_append, saveMonitors_cons_some _ _ _ _ _ _ _ _ hb]
  have hca : mapGet (idxMapAfter l1 []) aI.szDevice =
      deviceCount aI.szDevice l1 := by
    rw [mapGet_idxMapAfter]
    simp [mapGet]
  have hcb : mapGet (idxMapAfter l2 (mapBump (idxMapAfter l1 [])
      aI.szDevice)) bI.szDevice =
      deviceCount aI.szDevice l1 + 1 + deviceCount bI.szDevice l2 := by
    rw [mapGet_idxMapAfter, ← hd, mapGet_mapBump_self, hca]
  refine ⟨_, _, _, _, _, rfl, ?_, ?_, ?_⟩
  · simp only [FancyZonesUtils.TrimDeviceId,
      FancyZonesUtils.GetDisplayDeviceId, hca, hcb]
    rcases Nat.eq_zero_or_pos (deviceCount aI.szDevice l1) with h0 | hpos
    · rw [if_pos h0, if_neg (by omega)]
      rw [← hd]
      exact base_ne_suffixed _ _
    · rw [if_neg (by omega), if_neg (by omega)]
      intro heq
      rw [← hd] at heq
      have hnat := strAppend_left_cancel _ _ _ heq
      have := natStr_inj _ _ (by omega) (by omega) hnat
      omega
  · intro h0
    simp only [FancyZonesUtils.GetDisplayDeviceId, hca]
    rw [if_pos h0]
  · refine ⟨deviceCount aI.szDevice l1 + 1 + deviceCount bI.szDevice l2,
      by omega, ?_⟩
    simp only [FancyZonesUtils.GetDisplayDeviceId, hcb]
    rw [if_neg (by omega)]

/-- Witness for C5: two monitors sharing base device name `DISPLAY1`. -/
theorem save_duplicate_names_distinct_witness :
    ((1 : Nat), (⟨"DISPLAY1", ⟨0, 0, 10, 10⟩, ⟨0, 0, 10, 10⟩⟩
      : MONITORINFOEX)).2.szDevice =
      ((2 : Nat), (⟨"DISPLAY1", ⟨10, 0, 20, 10⟩, ⟨10, 0, 20, 10⟩⟩
        : MONITORINFOEX)).2.szDevice ∧
    ∃ args, EditorParameters.Save
      { virtualDesktopIdStr := some "vd"
        spanZonesAcrossMonitors := false
        useCursorposEditorStartupscreen := true
        processId := 2
        allMonitors :=
          [(1, ⟨"DISPLAY1", ⟨0, 0, 10, 10⟩, ⟨0, 0, 10, 10⟩⟩),
           (2, ⟨"DISPLAY1", ⟨10, 0, 20, 10⟩, ⟨10, 0, 20, 10⟩⟩)]
        cursorMonitor := 1
        foregroundMonitor := 0
        getScreenDPIForMonitor := fun _ => some 96 } = some args ∧
    ∃ pre mid suf na nb,
      args.monitors =
        pre ++ monitorRecord
          { virtualDesktopIdStr := some "vd"
            spanZonesAcrossMonitors := false
            useCursorposEditorStartupscreen := true
            processId := 2
            allMonitors :=
              [(1, ⟨"DISPLAY1", ⟨0, 0, 10, 10⟩, ⟨0, 0, 10, 10⟩⟩),
               (2, ⟨"DISPLAY1", ⟨10, 0, 20, 10⟩, ⟨10, 0, 20, 10⟩⟩)]
            cursorMonitor := 1
            foregroundMonitor := 0
            getScreenDPIForMonitor := fun _ => some 96 } "vd" 1 1
          ⟨"DISPLAY1", ⟨0, 0, 10, 10⟩, ⟨0, 0, 10, 10⟩⟩ 96 na ::
          (mid ++ monitorRecord
            { virtualDesktopIdStr := some "vd"
              spanZonesAcrossMonitors := false
              useCursorposEditorStartupscreen := true
              processId := 2
              allMonitors :=
                [(1, ⟨"DISPLAY1", ⟨0, 0, 10, 10⟩, ⟨0, 0, 10, 10⟩⟩),
                 (2, ⟨"DISPLAY1", ⟨10, 0, 20, 10⟩, ⟨10, 0, 20, 10⟩⟩)]
              cursorMonitor := 1
              foregroundMonitor := 0
              getScreenDPIForMonitor := fun _ => some 96 } "vd" 1 2
            ⟨"DISPLAY1", ⟨10, 0, 20, 10⟩, ⟨10, 0, 20, 10⟩⟩ 96 nb :: suf) ∧
      FancyZonesUtils.TrimDeviceId na ≠ FancyZonesUtils.TrimDeviceId nb ∧
      (deviceCount "DISPLAY1" [] = 0 → na = "DISPLAY1") ∧
      ∃ c, 1 ≤ c ∧ nb = "DISPLAY1" ++ "_" ++ natStr c :=
  ⟨rfl,
   save_duplicate_names_distinct
     { virtualDesktopIdStr := some "vd"
       spanZonesAcrossMonitors := false
       useCursorposEditorStartupscreen := true
       processId := 2
       allMonitors :=
         [(1, ⟨"DISPLAY1", ⟨0, 0, 10, 10⟩, ⟨0, 0, 10, 10⟩⟩),
          (2, ⟨"DISPLAY1", ⟨10, 0, 20, 10⟩, ⟨10, 0, 20, 10⟩⟩)]
       cursorMonitor := 1
       foregroundMonitor := 0
       getScreenDPIForMonitor := fun _ => some 96 } "vd"
     [] [] []
     (1, ⟨"DISPLAY1", ⟨0, 0, 10, 10⟩, ⟨0, 0, 10, 10⟩⟩)
     (2, ⟨"DISPLAY1", ⟨10, 0, 20, 10⟩, ⟨10, 0, 20, 10⟩⟩)
     96 96 rfl rfl (by decide) rfl rfl rfl rfl⟩

example :
    Option.map (fun a => a.monitors.map (fun r => r.monitorName))
      (EditorParameters.Save
        { virtualDesktopIdStr := some "vd"
          spanZonesAcrossMonitors := false
          useCursorposEditorStartupscreen := true
          processId := 2
          allMonitors :=
            [(1, ⟨"DISPLAY1", ⟨0, 0, 10, 10⟩, ⟨0, 0, 10, 10⟩⟩),
             (2, ⟨"DISPLAY1", ⟨10, 0, 20, 10⟩, ⟨10, 0, 20, 10⟩⟩)]
          cursorMonitor := 1
          foregroundMonitor := 0
          getScreenDPIForMonitor := fun _ => some 96 }) =
      some ["DISPLAY1", "DISPLAY1_1"] := by decide
